import Mathlib

/-!
Verification of the phantom worktree lifecycle manager core against its
specification.  The TypeScript sources are shallowly embedded: `Result<T, E>`
becomes `Except E T`, external collaborator capabilities (filesystem checks,
VCS backend, process backend) become oracle fields of a backend structure,
and each embedded operation additionally returns the ordered list of backend
calls it made, so that claims of the form "the backend is never invoked" are
statable.
-/

namespace Phantom

/-! ## Worktree errors (core/worktree/errors.ts)

Each error class carries the name used to build its message; we keep the
payload rather than the formatted string.  Backend (VCS) errors flow through
`attachWorktreeCore` unchanged, so the error type is parametric in the
backend error type `ε` with an embedding constructor `backend`. -/

inductive AttachError (ε : Type) where
  | invalidName (name : String)
  | alreadyExists (name : String)
  | branchNotFound (name : String)
  | backend (e : ε)
deriving DecidableEq

/-- The VCS-backend calls `attachWorktreeCore` can make, in order. -/
inductive AttachEvent where
  | branchExistsQuery (root name : String)
  | attachCall (root path name : String)
deriving DecidableEq

/-- Oracles for the collaborators of `attachWorktreeCore`
(core/worktree/attach.ts): name validity, path computation
(paths.ts), `existsSync` (node:fs), and the VCS backend
(`branchExists`, `attachWorktree` of the git package). -/
structure AttachBackend (ε : Type) where
  validOk : String → Bool
  getWorktreePath : String → String → String
  existsSync : String → Bool
  branchExists : String → String → Except ε Bool
  attachWorktree : String → String → String → Except ε Unit

/-- Modelled from the spec: `validateWorktreeName` (core/worktree/validate.ts)
is not among the sources; per spec §4.1 it returns the name on success and
fails with InvalidName otherwise.  The validity predicate itself stays an
oracle (`validOk`). -/
def validateWorktreeName {ε : Type} (B : AttachBackend ε) (name : String) :
    Except (AttachError ε) String :=
  if B.validOk name then .ok name else .error (.invalidName name)

/-- Embedding of `attachWorktreeCore(gitRoot, name)` from
core/worktree/attach.ts.  The second component records the VCS-backend
calls made, in order; the filesystem `existsSync` probe is read-only and is
not a VCS-backend call. -/
def attachWorktreeCore {ε : Type} (B : AttachBackend ε) (gitRoot name : String) :
    Except (AttachError ε) String × List AttachEvent :=
  match validateWorktreeName B name with
  | .error e => (.error e, [])
  | .ok _ =>
    let worktreePath := B.getWorktreePath gitRoot name
    if B.existsSync worktreePath then
      (.error (.alreadyExists name), [])
    else
      match B.branchExists gitRoot name with
      | .error e => (.error (.backend e), [.branchExistsQuery gitRoot name])
      | .ok false =>
          (.error (.branchNotFound name), [.branchExistsQuery gitRoot name])
      | .ok true =>
        match B.attachWorktree gitRoot worktreePath name with
        | .error e =>
            (.error (.backend e),
             [.branchExistsQuery gitRoot name,
              .attachCall gitRoot worktreePath name])
        | .ok _ =>
            (.ok worktreePath,
             [.branchExistsQuery gitRoot name,
              .attachCall gitRoot worktreePath name])

/-- Concrete backends used to instantiate the attach theorems on closed
inputs.  `String` plays the role of the backend error type. -/
def attachBackendOfOutcomes (validOk existsSync : Bool)
    (branch : Except String Bool) (attach : Except String Unit) :
    AttachBackend String where
  validOk := fun _ => validOk
  getWorktreePath := fun root name => root ++ "/.git/phantom/worktrees/" ++ name
  existsSync := fun _ => existsSync
  branchExists := fun _ _ => branch
  attachWorktree := fun _ _ _ => attach

/-- C1: `attach` performs its checks in order — invalid name, then existing
worktree path, then missing branch, then delegation to the backend attach
(error propagated unchanged), and on success returns the computed path. -/
theorem attach_checks_in_order {ε : Type} (B : AttachBackend ε) (root name : String) :
    (B.validOk name = false →
      (attachWorktreeCore B root name).1 = .error (.invalidName name))
    ∧ (B.validOk name = true →
        B.existsSync (B.getWorktreePath root name) = true →
      (attachWorktreeCore B root name).1 = .error (.alreadyExists name))
    ∧ (B.validOk name = true →
        B.existsSync (B.getWorktreePath root name) = false →
        B.branchExists root name = .ok false →
      (attachWorktreeCore B root name).1 = .error (.branchNotFound name))
    ∧ (∀ e : ε, B.validOk name = true →
        B.existsSync (B.getWorktreePath root name) = false →
        B.branchExists root name = .ok true →
        B.attachWorktree root (B.getWorktreePath root name) name = .error e →
      (attachWorktreeCore B root name).1 = .error (.backend e))
    ∧ (B.validOk name = true →
        B.existsSync (B.getWorktreePath root name) = false →
        B.branchExists root name = .ok true →
        B.attachWorktree root (B.getWorktreePath root name) name = .ok () →
      (attachWorktreeCore B root name).1 = .ok (B.getWorktreePath root name)) := by
  refine ⟨?_, ?_, ?_, ?_, ?_⟩ <;>
    simp only [attachWorktreeCore, validateWorktreeName]
  · intro hv; simp [hv]
  · intro hv he; simp [hv, he]
  · intro hv he hb; simp [hv, he, hb]
  · intro e hv he hb ha; simp [hv, he, hb, ha]
  · intro hv he hb ha; simp [hv, he, hb, ha]

/-- Witness for C1: each branch of `attach_checks_in_order` exercised on a
closed backend whose oracles realize that branch's hypotheses. -/
theorem attach_checks_in_order_witness :
    ((attachWorktreeCore (attachBackendOfOutcomes false false (.ok true) (.ok ())) "r" "n").1
        = .error (.invalidName "n"))
    ∧ ((attachWorktreeCore (attachBackendOfOutcomes true true (.ok true) (.ok ())) "r" "n").1
        = .error (.alreadyExists "n"))
    ∧ ((attachWorktreeCore (attachBackendOfOutcomes true false (.ok false) (.ok ())) "r" "n").1
        = .error (.branchNotFound "n"))
    ∧ ((attachWorktreeCore (attachBackendOfOutcomes true false (.ok true) (.error "boom")) "r" "n").1
        = .error (.backend "boom"))
    ∧ ((attachWorktreeCore (attachBackendOfOutcomes true false (.ok true) (.ok ())) "r" "n").1
        = .ok "r/.git/phantom/worktrees/n") :=
  ⟨(attach_checks_in_order (attachBackendOfOutcomes false false (.ok true) (.ok ())) "r" "n").1
      rfl,
   (attach_checks_in_order (attachBackendOfOutcomes true true (.ok true) (.ok ())) "r" "n").2.1
      rfl rfl,
   (attach_checks_in_order (attachBackendOfOutcomes true false (.ok false) (.ok ())) "r" "n").2.2.1
      rfl rfl rfl,
   (attach_checks_in_order (attachBackendOfOutcomes true false (.ok true) (.error "boom")) "r" "n").2.2.2.1
      "boom" rfl rfl rfl rfl,
   (attach_checks_in_order (attachBackendOfOutcomes true false (.ok true) (.ok ())) "r" "n").2.2.2.2
      rfl rfl rfl rfl⟩

/-- C3: when the branch does not exist (name valid, path absent), attach
fails with BranchNotFound and the only backend call made is the
branch-existence query — the backend attach is never invoked, so no
filesystem mutation occurs. -/
theorem attach_branch_not_found_no_mutation {ε : Type} (B : AttachBackend ε)
    (root name : String)
    (hv : B.validOk name = true)
    (he : B.existsSync (B.getWorktreePath root name) = false)
    (hb : B.branchExists root name = .ok false) :
    attachWorktreeCore B root name =
      (.error (.branchNotFound name), [.branchExistsQuery root name]) := by
  simp [attachWorktreeCore, validateWorktreeName, hv, he, hb]

/-- Witness for C3 on a closed backend. -/
theorem attach_branch_not_found_no_mutation_witness :
    attachWorktreeCore (attachBackendOfOutcomes true false (.ok false) (.ok ())) "r" "feature-x" =
      (.error (.branchNotFound "feature-x"), [.branchExistsQuery "r" "feature-x"]) :=
  attach_branch_not_found_no_mutation
    (attachBackendOfOutcomes true false (.ok false) (.ok ())) "r" "feature-x" rfl rfl rfl

/-- C10: for a valid name, a filesystem entry at the computed worktree path
alone decides the WorktreeAlreadyExists failure: the result holds for every
backend (in particular one with no attachment record for the name) and the
VCS backend is not consulted at all (empty call list). -/
theorem attach_exists_decided_by_filesystem {ε : Type} (B : AttachBackend ε)
    (root name : String)
    (hv : B.validOk name = true)
    (he : B.existsSync (B.getWorktreePath root name) = true) :
    attachWorktreeCore B root name = (.error (.alreadyExists name), []) := by
  simp [attachWorktreeCore, validateWorktreeName, hv, he]

/-- Witness for C10: a backend that would report the branch as absent and
would fail on attach still yields WorktreeAlreadyExists with no backend
call once the path exists. -/
theorem attach_exists_decided_by_filesystem_witness :
    attachWorktreeCore (attachBackendOfOutcomes true true (.ok false) (.error "never")) "r" "n" =
      (.error (.alreadyExists "n"), []) :=
  attach_exists_decided_by_filesystem
    (attachBackendOfOutcomes true true (.ok false) (.error "never")) "r" "n" rfl rfl

/-! ## Process execution bridge (core/process/exec.ts and the shell entry)

`spawnProcess` and its option record are modelled from the spec:
the process backend capability is
`spawn(command, args, \x7bcwd, env, stdio\x7d) -> ok(exitCode) | fails(ProcessSpawnError)`
(spec §6); the process package itself is not among the sources. -/

/-- One disposition of a standard stream, as used by the sources. -/
inductive StdioKind where
  | inherit
  | ignore
deriving DecidableEq

/-- The two stdio configurations the sources pass: the string form
"inherit" (all three streams inherited) or the per-stream triple
["ignore", "inherit", "inherit"]. -/
inductive StdioValue where
  | inheritAll
  | perStream (stdin stdout stderr : StdioKind)
deriving DecidableEq

/-- Disposition of the child's standard input under Node semantics. -/
def StdioValue.stdinKind : StdioValue → StdioKind
  | .inheritAll => .inherit
  | .perStream k _ _ => k

/-- Disposition of the child's standard output under Node semantics. -/
def StdioValue.stdoutKind : StdioValue → StdioKind
  | .inheritAll => .inherit
  | .perStream _ k _ => k

/-- Disposition of the child's standard error under Node semantics. -/
def StdioValue.stderrKind : StdioValue → StdioKind
  | .inheritAll => .inherit
  | .perStream _ _ k => k

/-- A process environment: an association of variable names to values,
later entries overriding earlier ones (JS object-spread semantics). -/
abbrev EnvMap := List (String × String)

/-- JS object spread `\x7b...base, ...override\x7d`: entries of `override`
take precedence, modelled by putting them first for `envLookup`. -/
def mergeEnv (base override : EnvMap) : EnvMap := override ++ base

/-- Value of a variable in an environment (first entry wins, matching
`mergeEnv` placing overrides first). -/
def envLookup (env : EnvMap) (key : String) : Option String :=
  (env.find? (fun p => p.1 == key)).map (fun p => p.2)

/-- Options handed to the process backend; `env := none` models a spawn
call whose option object has no `env` key, in which case the child
inherits the caller's environment. -/
structure SpawnOptions where
  cwd : String
  stdio : StdioValue
  env : Option EnvMap
deriving DecidableEq

/-- A request handed to the process backend's spawn capability. -/
structure SpawnRequest where
  command : String
  args : List String
  options : SpawnOptions
deriving DecidableEq

/-- The environment the child actually receives: the explicit `env`
option if one was passed, else the caller's environment. -/
def SpawnRequest.effectiveEnv (req : SpawnRequest) (callerEnv : EnvMap) : EnvMap :=
  req.options.env.getD callerEnv

/-- Modelled from the spec: the process backend's failure
(§6, §7 ProcessSpawnError — the backend could not start the program). -/
structure ProcessSpawnError where
  command : String
  message : String
deriving DecidableEq

/-- Success value of a spawn: the child's exit code (spec §6). -/
structure SpawnSuccess where
  exitCode : Nat
deriving DecidableEq

/-- core/worktree/errors.ts WorktreeNotFoundError, by payload. -/
structure WorktreeNotFoundError where
  name : String
deriving DecidableEq

/-- The success value of worktree-existence validation: the resolved
worktree, of which the execution bridge uses the path. -/
structure WorktreeInfo where
  path : String
deriving DecidableEq

/-- The failure type of the execution bridge:
`WorktreeNotFoundError | ProcessError` from exec.ts. -/
inductive ExecError where
  | worktreeNotFound (e : WorktreeNotFoundError)
  | process (e : ProcessSpawnError)
deriving DecidableEq

/-- Oracles for the collaborators of `execInWorktree`:
`validateWorktreeExists` (core/worktree/validate.ts) and the process
backend's `spawnProcess`. -/
structure ExecBackend where
  validateWorktreeExists : String → String → Except WorktreeNotFoundError WorktreeInfo
  spawn : SpawnRequest → Except ProcessSpawnError SpawnSuccess

/-- The spawn request `execInWorktree` builds:
command head and tail of the argument vector (`const [cmd, ...args]`;
an empty vector destructures to an undefined command, modelled as ""),
cwd the worktree path, stdio "inherit" when interactive and
["ignore", "inherit", "inherit"] otherwise, and no env key. -/
def execRequest (worktreePath : String) (command : List String)
    (interactive : Bool) : SpawnRequest :=
  { command := command.headD ""
    args := command.tail
    options :=
      { cwd := worktreePath
        stdio := if interactive then .inheritAll
                 else .perStream .ignore .inherit .inherit
        env := none } }

/-- Embedding of `execInWorktree(gitRoot, worktreeName, command, options)`
from core/process/exec.ts.  The second component records the spawn
requests handed to the process backend. -/
def execInWorktree (B : ExecBackend) (gitRoot worktreeName : String)
    (command : List String) (interactive : Bool) :
    Except ExecError SpawnSuccess × List SpawnRequest :=
  match B.validateWorktreeExists gitRoot worktreeName with
  | .error e => (.error (.worktreeNotFound e), [])
  | .ok info =>
    let req := execRequest info.path command interactive
    (match B.spawn req with
     | .error e => .error (.process e)
     | .ok s => .ok s,
     [req])

/-- JS `a || b` on an optional environment-variable string: an unset or
empty value falls back to the default. -/
def jsStringOr (v : Option String) (d : String) : String :=
  match v with
  | some s => if s == "" then d else s
  | none => d

/-- Modelled from the spec: `getPhantomEnv(name, path)` of the process
package (not among the sources) — the "active" marker, the worktree's
name and the worktree's path (§4.5); variable names as asserted by the
shell test in the sources. -/
def getPhantomEnv (name path : String) : EnvMap :=
  [("PHANTOM", "1"), ("PHANTOM_NAME", name), ("PHANTOM_PATH", path)]

/-- Oracles for the collaborators of `shellInWorktree`; its existence
validation takes the worktrees directory as well. -/
structure ShellBackend where
  validateWorktreeExists :
    String → String → String → Except WorktreeNotFoundError WorktreeInfo
  spawn : SpawnRequest → Except ProcessSpawnError SpawnSuccess

/-- Modelled from the spec: `shellInWorktree(gitRoot, worktreesDirectory,
worktreeName)` (core shell entry, not among the sources; behavior per spec
§4.5 and the shell test in the sources): validate existence, else spawn the
user's shell (SHELL, falling back to /bin/sh) with no arguments, cwd the
worktree path, all streams inherited, and the caller's environment
overridden with the phantom variables.  The caller's environment and SHELL
variable are explicit parameters (spec §9). -/
def shellInWorktree (B : ShellBackend) (callerEnv : EnvMap)
    (shellVar : Option String)
    (gitRoot worktreesDirectory worktreeName : String) :
    Except ExecError SpawnSuccess × List SpawnRequest :=
  match B.validateWorktreeExists gitRoot worktreesDirectory worktreeName with
  | .error e => (.error (.worktreeNotFound e), [])
  | .ok info =>
    let shell := jsStringOr shellVar "/bin/sh"
    let req : SpawnRequest :=
      { command := shell
        args := []
        options :=
          { cwd := info.path
            stdio := .inheritAll
            env := some (mergeEnv callerEnv
                          (getPhantomEnv worktreeName info.path)) } }
    (match B.spawn req with
     | .error e => .error (.process e)
     | .ok s => .ok s,
     [req])

/-- A closed exec backend with constant oracle outcomes. -/
def execBackendConst (v : Except WorktreeNotFoundError WorktreeInfo)
    (s : Except ProcessSpawnError SpawnSuccess) : ExecBackend where
  validateWorktreeExists := fun _ _ => v
  spawn := fun _ => s

/-- A closed shell backend with constant oracle outcomes. -/
def shellBackendConst (v : Except WorktreeNotFoundError WorktreeInfo)
    (s : Except ProcessSpawnError SpawnSuccess) : ShellBackend where
  validateWorktreeExists := fun _ _ _ => v
  spawn := fun _ => s

/-- C6: when worktree-existence validation fails, both the exec path and
the shell path return the WorktreeNotFound failure and no spawn request is
handed to the process backend. -/
theorem worktree_not_found_blocks_spawn (EB : ExecBackend) (SB : ShellBackend)
    (callerEnv : EnvMap) (shellVar : Option String)
    (root wtDir name : String) (command : List String) (interactive : Bool)
    (e e' : WorktreeNotFoundError)
    (hv : EB.validateWorktreeExists root name = .error e)
    (hs : SB.validateWorktreeExists root wtDir name = .error e') :
    execInWorktree EB root name command interactive
      = (.error (.worktreeNotFound e), [])
    ∧ shellInWorktree SB callerEnv shellVar root wtDir name
      = (.error (.worktreeNotFound e'), []) := by
  constructor
  · simp [execInWorktree, hv]
  · simp [shellInWorktree, hs]

/-- Witness for C6 on closed backends whose validation fails. -/
theorem worktree_not_found_blocks_spawn_witness :
    execInWorktree (execBackendConst (.error ⟨"gone"⟩) (.ok ⟨0⟩)) "/r" "gone" ["ls"] false
      = (.error (.worktreeNotFound ⟨"gone"⟩), [])
    ∧ shellInWorktree (shellBackendConst (.error ⟨"gone"⟩) (.ok ⟨0⟩)) [] none "/r" "/r/wts" "gone"
      = (.error (.worktreeNotFound ⟨"gone"⟩), []) :=
  worktree_not_found_blocks_spawn
    (execBackendConst (.error ⟨"gone"⟩) (.ok ⟨0⟩))
    (shellBackendConst (.error ⟨"gone"⟩) (.ok ⟨0⟩))
    [] none "/r" "/r/wts" "gone" ["ls"] false ⟨"gone"⟩ ⟨"gone"⟩ rfl rfl

/-- C4: a child exit code, zero or not, is the success value of
`execInWorktree`; and any failure is either WorktreeNotFound or a
process-backend spawn error. -/
theorem exec_exit_code_is_success (EB : ExecBackend) (root name : String)
    (command : List String) (interactive : Bool) (info : WorktreeInfo) (n : Nat)
    (hv : EB.validateWorktreeExists root name = .ok info)
    (hspawn : EB.spawn (execRequest info.path command interactive) = .ok ⟨n⟩) :
    (execInWorktree EB root name command interactive).1 = .ok ⟨n⟩
    ∧ ∀ err, (execInWorktree EB root name command interactive).1 = .error err →
        (∃ w, err = .worktreeNotFound w) ∨ (∃ p, err = .process p) := by
  constructor
  · simp [execInWorktree, hv, hspawn]
  · intro err _
    cases err with
    | worktreeNotFound w => exact Or.inl ⟨w, rfl⟩
    | process p => exact Or.inr ⟨p, rfl⟩

/-- Witness for C4: a child exiting with code 7 yields ok(7). -/
theorem exec_exit_code_is_success_witness :
    (execInWorktree (execBackendConst (.ok ⟨"/wt/f"⟩) (.ok ⟨7⟩)) "/r" "f" ["make"] false).1
      = .ok ⟨7⟩ :=
  (exec_exit_code_is_success (execBackendConst (.ok ⟨"/wt/f"⟩) (.ok ⟨7⟩))
    "/r" "f" ["make"] false ⟨"/wt/f"⟩ 7 rfl rfl).1

/-- C8: every spawn request of a non-interactive execution has stdin
ignored and stdout/stderr inherited; every spawn request of an interactive
execution has all three streams inherited. -/
theorem exec_stdio_selection (EB : ExecBackend) (root name : String)
    (command : List String) :
    (∀ req ∈ (execInWorktree EB root name command false).2,
        req.options.stdio.stdinKind = .ignore
        ∧ req.options.stdio.stdoutKind = .inherit
        ∧ req.options.stdio.stderrKind = .inherit)
    ∧ (∀ req ∈ (execInWorktree EB root name command true).2,
        req.options.stdio.stdinKind = .inherit
        ∧ req.options.stdio.stdoutKind = .inherit
        ∧ req.options.stdio.stderrKind = .inherit) := by
  constructor <;> intro req hreq <;>
    cases hv : EB.validateWorktreeExists root name with
  | error e =>
      rw [execInWorktree, hv] at hreq
      simp at hreq
  | ok info =>
      rw [execInWorktree, hv] at hreq
      simp at hreq
      subst hreq
      simp [execRequest, StdioValue.stdinKind, StdioValue.stdoutKind,
            StdioValue.stderrKind]

/-- Witness for C8 on a closed backend, both interactive and not. -/
theorem exec_stdio_selection_witness :
    ((execRequest "/wt/f" ["ls"] false).options.stdio.stdinKind = .ignore
      ∧ (execRequest "/wt/f" ["ls"] false).options.stdio.stdoutKind = .inherit
      ∧ (execRequest "/wt/f" ["ls"] false).options.stdio.stderrKind = .inherit)
    ∧ ((execRequest "/wt/f" ["ls"] true).options.stdio.stdinKind = .inherit
      ∧ (execRequest "/wt/f" ["ls"] true).options.stdio.stdoutKind = .inherit
      ∧ (execRequest "/wt/f" ["ls"] true).options.stdio.stderrKind = .inherit) :=
  ⟨(exec_stdio_selection (execBackendConst (.ok ⟨"/wt/f"⟩) (.ok ⟨0⟩)) "/r" "f" ["ls"]).1
      (execRequest "/wt/f" ["ls"] false) (by decide),
   (exec_stdio_selection (execBackendConst (.ok ⟨"/wt/f"⟩) (.ok ⟨0⟩)) "/r" "f" ["ls"]).2
      (execRequest "/wt/f" ["ls"] true) (by decide)⟩

/-- C2 counterexample: on the exec-in-worktree path the source passes no
env key at all, so the environment handed to the process backend lacks the
phantom variables — at this closed input the single spawn request has
`env = none` and its effective environment has no PHANTOM_NAME entry. -/
theorem exec_env_missing_phantom :
    (execInWorktree (execBackendConst (.ok ⟨"/wt/feat"⟩) (.ok ⟨0⟩))
        "/repo" "feat" ["ls"] false).2
      = [execRequest "/wt/feat" ["ls"] false]
    ∧ (execRequest "/wt/feat" ["ls"] false).options.env = none
    ∧ envLookup ((execRequest "/wt/feat" ["ls"] false).effectiveEnv
        [("HOME", "/home/u")]) "PHANTOM_NAME" = none := by
  decide

/-- C2 amended: the shell-entry path injects the marker, the worktree's
name and the resolved path over the caller's environment; the
exec-in-worktree path passes no env overrides, the child inheriting the
caller's environment unchanged. -/
theorem spawn_env_amended (EB : ExecBackend) (SB : ShellBackend)
    (callerEnv : EnvMap) (shellVar : Option String)
    (root wtDir name : String) (command : List String) (interactive : Bool)
    (info : WorktreeInfo)
    (hs : SB.validateWorktreeExists root wtDir name = .ok info) :
    (∀ req ∈ (execInWorktree EB root name command interactive).2,
        req.options.env = none ∧ req.effectiveEnv callerEnv = callerEnv)
    ∧ (∀ req ∈ (shellInWorktree SB callerEnv shellVar root wtDir name).2,
        envLookup (req.effectiveEnv callerEnv) "PHANTOM" = some "1"
        ∧ envLookup (req.effectiveEnv callerEnv) "PHANTOM_NAME" = some name
        ∧ envLookup (req.effectiveEnv callerEnv) "PHANTOM_PATH" = some info.path) := by
  constructor
  · intro req hreq
    cases hv : EB.validateWorktreeExists root name with
    | error e =>
        rw [execInWorktree, hv] at hreq
        simp at hreq
    | ok i =>
        rw [execInWorktree, hv] at hreq
        simp at hreq
        subst hreq
        simp [execRequest, SpawnRequest.effectiveEnv]
  · intro req hreq
    rw [shellInWorktree, hs] at hreq
    simp at hreq
    subst hreq
    refine ⟨?_, ?_, ?_⟩ <;>
      simp [SpawnRequest.effectiveEnv, envLookup, mergeEnv, getPhantomEnv,
            List.find?]

/-- Witness for the amended C2 on closed backends. -/
theorem spawn_env_amended_witness :
    ((execRequest "/wt/f" ["ls"] false).options.env = none
      ∧ (execRequest "/wt/f" ["ls"] false).effectiveEnv [("HOME", "/home/u")]
          = [("HOME", "/home/u")])
    ∧ (envLookup ((shellInWorktree (shellBackendConst (.ok ⟨"/wt/f"⟩) (.ok ⟨0⟩))
          [("HOME", "/home/u")] (some "/bin/bash") "/r" "/r/wts" "f").2.headD
            (execRequest "" [] false)
          |>.effectiveEnv [("HOME", "/home/u")]) "PHANTOM_NAME" = some "f") :=
  ⟨(spawn_env_amended (execBackendConst (.ok ⟨"/wt/f"⟩) (.ok ⟨0⟩))
      (shellBackendConst (.ok ⟨"/wt/f"⟩) (.ok ⟨0⟩))
      [("HOME", "/home/u")] (some "/bin/bash") "/r" "/r/wts" "f" ["ls"] false
      ⟨"/wt/f"⟩ rfl).1
      (execRequest "/wt/f" ["ls"] false) (by decide),
   ((spawn_env_amended (execBackendConst (.ok ⟨"/wt/f"⟩) (.ok ⟨0⟩))
      (shellBackendConst (.ok ⟨"/wt/f"⟩) (.ok ⟨0⟩))
      [("HOME", "/home/u")] (some "/bin/bash") "/r" "/r/wts" "f" ["ls"] false
      ⟨"/wt/f"⟩ rfl).2
      ((shellInWorktree (shellBackendConst (.ok ⟨"/wt/f"⟩) (.ok ⟨0⟩))
          [("HOME", "/home/u")] (some "/bin/bash") "/r" "/r/wts" "f").2.headD
        (execRequest "" [] false)) (by decide)).2.1⟩

/-! ## Configuration validation (core/config/validate.ts) -/

/-- A JSON-like JavaScript value, as far as the validator inspects it. -/
inductive JsValue where
  | null
  | bool (b : Bool)
  | num (n : Int)
  | str (s : String)
  | arr (elems : List JsValue)
  | obj (fields : List (String × JsValue))

/-- JS property access `v.key`: some value when `v` is an object carrying
the key, else none (undefined). -/
def JsValue.getField : JsValue → String → Option JsValue
  | .obj fields, key => (fields.find? (fun p => p.1 == key)).map (fun p => p.2)
  | _, _ => none

/-- Modelled from the spec: `isObject` of the shared package (not among
the sources) — a plain-object check, true exactly for objects. -/
def isObject : JsValue → Bool
  | .obj _ => true
  | _ => false

/-- `Array.isArray`. -/
def JsValue.isArray : JsValue → Bool
  | .arr _ => true
  | _ => false

/-- `typeof v === "string"`. -/
def JsValue.isString : JsValue → Bool
  | .str _ => true
  | _ => false

/-- core/config/validate.ts ConfigValidationError, by its message. -/
structure ConfigValidationError where
  message : String
deriving DecidableEq

/-- One optional string-array field check of `validateConfig`: a present
value must be an array (first message) of strings (second message). -/
def checkOptionalStringArray :
    Option JsValue → String → String → Except ConfigValidationError Unit
  | none, _, _ => .ok ()
  | some (.arr elems), _, strMsg =>
      if elems.all JsValue.isString then .ok () else .error ⟨strMsg⟩
  | some _, arrMsg, _ => .error ⟨arrMsg⟩

/-- The postCreate block of `validateConfig`: a present postCreate must be
an object, and its copyFiles and commands fields, when present, arrays of
strings, checked in that order. -/
def checkPostCreateSection : Option JsValue → Except ConfigValidationError Unit
  | none => .ok ()
  | some postCreate =>
      if !isObject postCreate then
        .error ⟨"postCreate must be an object"⟩
      else
        match checkOptionalStringArray (postCreate.getField "copyFiles")
            "postCreate.copyFiles must be an array"
            "postCreate.copyFiles must contain only strings" with
        | .error e => .error e
        | .ok _ =>
            checkOptionalStringArray (postCreate.getField "commands")
              "postCreate.commands must be an array"
              "postCreate.commands must contain only strings"

/-- Embedding of `validateConfig(config)` from core/config/validate.ts:
the value must be an object and a present postCreate section must be
well-shaped; the input is then returned unchanged.  (The source checks
nothing else — in particular no field named postDelete.) -/
def validateConfig (config : JsValue) : Except ConfigValidationError JsValue :=
  if !isObject config then
    .error ⟨"Configuration must be an object"⟩
  else
    match checkPostCreateSection (config.getField "postCreate") with
    | .error e => .error e
    | .ok _ => .ok config

/-- Schema conformance of one optional string-array field, following the
spec §6 wording. -/
def optionalStringArrayOk : Option JsValue → Bool
  | none => true
  | some (.arr elems) => elems.all JsValue.isString
  | some _ => false

/-- Schema conformance of an optional postCreate section value: an object
whose copyFiles and commands, when present, are arrays of strings. -/
def postCreateSectionOkOf : Option JsValue → Bool
  | none => true
  | some pc =>
      isObject pc
      && optionalStringArrayOk (pc.getField "copyFiles")
      && optionalStringArrayOk (pc.getField "commands")

/-- The claim's declared schema for a present postCreate section,
following the spec wording. -/
def postCreateSectionOk (config : JsValue) : Bool :=
  postCreateSectionOkOf (config.getField "postCreate")

/-- The claim's declared schema for a present postDelete section,
following the spec wording: an object whose commands, when present, is an
array of strings. -/
def postDeleteSectionOk (config : JsValue) : Bool :=
  match config.getField "postDelete" with
  | none => true
  | some pd => isObject pd && optionalStringArrayOk (pd.getField "commands")

theorem checkOptionalStringArray_isOk (v : Option JsValue) (m m' : String) :
    (checkOptionalStringArray v m m').isOk = optionalStringArrayOk v := by
  match v with
  | none => rfl
  | some (.arr elems) =>
      simp only [checkOptionalStringArray, optionalStringArrayOk]
      split <;> simp_all [Except.isOk, Except.toBool]
  | some .null | some (.bool _) | some (.num _) | some (.str _)
  | some (.obj _) => rfl

/-- C9 counterexample: a config whose postDelete is the number 42 (not an
object, hence violating the declared postDelete schema) is accepted by
`validateConfig` unchanged — the source never inspects postDelete. -/
theorem validateConfig_accepts_bad_postDelete :
    validateConfig (.obj [("postDelete", .num 42)])
      = .ok (.obj [("postDelete", .num 42)])
    ∧ postDeleteSectionOk (.obj [("postDelete", .num 42)]) = false :=
  ⟨rfl, rfl⟩

/-- C9 amended: `validateConfig` returns ok exactly when the value is an
object whose postCreate section, when present, matches the declared
schema; any violation there yields a ConfigValidationError, but the
postDelete section is never validated. -/
theorem checkPostCreateSection_isOk (o : Option JsValue) :
    (checkPostCreateSection o).isOk = postCreateSectionOkOf o := by
  cases o with
  | none => rfl
  | some pc =>
    simp only [checkPostCreateSection, postCreateSectionOkOf]
    cases hpco : isObject pc with
    | false => simp [Except.isOk, Except.toBool]
    | true =>
      simp only [Bool.not_true, Bool.true_and, Bool.false_eq_true, if_false]
      cases hcf : checkOptionalStringArray (pc.getField "copyFiles")
          "postCreate.copyFiles must be an array"
          "postCreate.copyFiles must contain only strings" with
      | error e =>
          have h1 := checkOptionalStringArray_isOk (pc.getField "copyFiles")
            "postCreate.copyFiles must be an array"
            "postCreate.copyFiles must contain only strings"
          rw [hcf] at h1
          simp only [Except.isOk, Except.toBool] at h1 ⊢
          rw [← h1]
          simp
      | ok u =>
          have h1 := checkOptionalStringArray_isOk (pc.getField "copyFiles")
            "postCreate.copyFiles must be an array"
            "postCreate.copyFiles must contain only strings"
          rw [hcf] at h1
          simp only [Except.isOk, Except.toBool] at h1
          rw [← h1]
          simp only [Bool.true_and]
          exact checkOptionalStringArray_isOk (pc.getField "commands")
            "postCreate.commands must be an array"
            "postCreate.commands must contain only strings"

theorem validateConfig_ok_iff (c : JsValue) :
    (validateConfig c).isOk = (isObject c && postCreateSectionOk c) := by
  unfold validateConfig postCreateSectionOk
  cases hobj : isObject c with
  | false => simp [Except.isOk, Except.toBool]
  | true =>
    simp only [Bool.not_true, Bool.true_and, Bool.false_eq_true, if_false]
    cases hcp : checkPostCreateSection (c.getField "postCreate") with
    | error e =>
        have h1 := checkPostCreateSection_isOk (c.getField "postCreate")
        rw [hcp] at h1
        simp only [Except.isOk, Except.toBool] at h1 ⊢
        rw [← h1]
    | ok u =>
        have h1 := checkPostCreateSection_isOk (c.getField "postCreate")
        rw [hcp] at h1
        simp only [Except.isOk, Except.toBool] at h1 ⊢
        rw [← h1]

/-! ## Delete handler: config handling and post-delete hook loop
(cli/handlers/delete.ts) -/

/-- The outcomes of the external config loader (core/config/loader.ts is
not among the sources; its error classes per spec §6: an absent file, a
parse failure, a validation failure). -/
inductive ConfigError where
  | notFound
  | parseError (message : String)
  | validationError (message : String)
deriving DecidableEq

/-- The postDelete section of a loaded configuration, as the delete
handler reads it (`postDelete?.commands`). -/
structure PostDeleteConfig where
  commands : Option (List String)
deriving DecidableEq

/-- A loaded configuration, restricted to what the delete handler reads. -/
structure PhantomConfig where
  postDelete : Option PostDeleteConfig
deriving DecidableEq

/-- Embedding of the config-handling block of the delete handler:
the warnings printed for a config load outcome.  Validation errors and
parse errors warn, in that order of testing; an absent file stays
silent; the handler continues in every case. -/
def configPhaseWarnings : Except ConfigError PhantomConfig → List String
  | .error (.validationError m) => ["Configuration warning: " ++ m]
  | .error (.parseError m) => ["Configuration warning: " ++ m]
  | .error .notFound => []
  | .ok _ => []

/-- Embedding of the hook-selection guard of the delete handler: the
post-delete commands to execute — only when the config loaded and its
postDelete.commands is present. -/
def postDeleteCommandsOf : Except ConfigError PhantomConfig → List String
  | .ok cfg =>
      match cfg.postDelete with
      | some pd => pd.commands.getD []
      | none => []
  | .error _ => []

/-- The exit code reported when a post-delete command fails at the spawn
level: the error value carries no exit code of its own (spec §6: a spawn
failure is a ProcessSpawnError), so the handler falls back to the CLI's
general error code, kept abstract here. -/
def execErrorExitCode (generalError : Nat) : ExecError → Nat
  | .worktreeNotFound _ => generalError
  | .process _ => generalError

/-- The failure reported by the post-delete loop: the message built from
the offending command's text, and the exit code passed to the CLI exit. -/
structure HookFailure where
  message : String
  exitCode : Nat
deriving DecidableEq

/-- Embedding of the post-delete command loop of the delete handler: each
command runs through `execInWorktree` as [shell, "-c", command] (the
shell resolved from SHELL || /bin/sh once per iteration, identical each
time, hoisted here as a parameter); a spawn failure or a nonzero exit
code stops the loop with the command's failure; otherwise the next
command runs.  Returns the commands attempted, in order, and the failure
if any. -/
def runPostDeleteCommands (B : ExecBackend) (generalError : Nat)
    (shell gitRoot : String) :
    List String → List String × Option HookFailure
  | [] => ([], none)
  | command :: rest =>
    match (execInWorktree B gitRoot "." [shell, "-c", command] false).1 with
    | .error e =>
        ([command],
         some ⟨"Post-delete command failed: " ++ command,
               execErrorExitCode generalError e⟩)
    | .ok s =>
        if s.exitCode ≠ 0 then
          ([command],
           some ⟨"Post-delete command failed: " ++ command, s.exitCode⟩)
        else
          let r := runPostDeleteCommands B generalError shell gitRoot rest
          (command :: r.1, r.2)

/-- C5: with every earlier command succeeding with exit code 0 and command
`c` exiting nonzero, the loop executes exactly the declared prefix up to
and including `c`, in order, and reports the failure with `c`'s text and
exit code; the commands after `c` are never executed. -/
theorem hooks_first_failure_aborts (B : ExecBackend) (generalError : Nat)
    (shell gitRoot : String) (pre post : List String) (c : String) (n : Nat)
    (info : WorktreeInfo)
    (hv : B.validateWorktreeExists gitRoot "." = .ok info)
    (hpre : ∀ x ∈ pre,
      B.spawn (execRequest info.path [shell, "-c", x] false) = .ok ⟨0⟩)
    (hc : B.spawn (execRequest info.path [shell, "-c", c] false) = .ok ⟨n⟩)
    (hn : n ≠ 0) :
    runPostDeleteCommands B generalError shell gitRoot (pre ++ c :: post)
      = (pre ++ [c],
         some ⟨"Post-delete command failed: " ++ c, n⟩) := by
  induction pre with
  | nil =>
      simp only [List.nil_append, runPostDeleteCommands, execInWorktree, hv, hc]
      simp [hn]
  | cons x xs ih =>
      have hx := hpre x (List.mem_cons_self x xs)
      have ih' := ih (fun y hy => hpre y (List.mem_cons_of_mem x hy))
      simp only [List.cons_append, runPostDeleteCommands, execInWorktree, hv, hx]
      simp [ih']

/-- A closed exec backend for the C5 witness: the command "false" exits
with code 1, every other command with 0. -/
def hookExecBackend : ExecBackend where
  validateWorktreeExists := fun _ _ => .ok ⟨"/wt"⟩
  spawn := fun req => if req.args = ["-c", "false"] then .ok ⟨1⟩ else .ok ⟨0⟩

/-- Witness for C5: the spec's ["true", "false", "true"] example — the
loop stops after "false", reporting its text and exit code 1, and the
third command never runs. -/
theorem hooks_first_failure_aborts_witness :
    runPostDeleteCommands hookExecBackend 1 "/bin/sh" "/r"
        ["true", "false", "true"]
      = (["true", "false"],
         some ⟨"Post-delete command failed: " ++ "false", 1⟩) :=
  hooks_first_failure_aborts hookExecBackend 1 "/bin/sh" "/r"
    ["true"] ["true"] "false" 1 ⟨"/wt"⟩ rfl
    (by intro x hx
        simp only [List.mem_singleton] at hx
        subst hx
        rfl)
    rfl (by decide)

/-- C7: an absent configuration file is silent (no warning) and is treated
as no hooks configured (the post-delete loop runs nothing and reports no
failure); a malformed file — parse or validation failure — is reported as
a warning; and among the loader's failures, absence is the only one that
produces no report. -/
theorem config_absent_is_silent (B : ExecBackend) (generalError : Nat)
    (shell gitRoot : String) :
    configPhaseWarnings (.error .notFound) = []
    ∧ runPostDeleteCommands B generalError shell gitRoot
        (postDeleteCommandsOf (.error .notFound)) = ([], none)
    ∧ (∀ m, configPhaseWarnings (.error (.parseError m))
        = ["Configuration warning: " ++ m])
    ∧ (∀ m, configPhaseWarnings (.error (.validationError m))
        = ["Configuration warning: " ++ m])
    ∧ (∀ e, configPhaseWarnings (.error e) = [] → e = .notFound) := by
  refine ⟨rfl, rfl, fun m => rfl, fun m => rfl, ?_⟩
  intro e he
  cases e with
  | notFound => rfl
  | parseError m => simp [configPhaseWarnings] at he
  | validationError m => simp [configPhaseWarnings] at he

/-- Witness for C7 on closed inputs. -/
theorem config_absent_is_silent_witness :
    configPhaseWarnings (.error .notFound) = []
    ∧ runPostDeleteCommands (execBackendConst (.ok ⟨"/wt"⟩) (.ok ⟨0⟩)) 1
        "/bin/sh" "/r" (postDeleteCommandsOf (.error .notFound)) = ([], none)
    ∧ ConfigError.notFound = .notFound :=
  ⟨(config_absent_is_silent (execBackendConst (.ok ⟨"/wt"⟩) (.ok ⟨0⟩)) 1
      "/bin/sh" "/r").1,
   (config_absent_is_silent (execBackendConst (.ok ⟨"/wt"⟩) (.ok ⟨0⟩)) 1
      "/bin/sh" "/r").2.1,
   (config_absent_is_silent (execBackendConst (.ok ⟨"/wt"⟩) (.ok ⟨0⟩)) 1
      "/bin/sh" "/r").2.2.2.2 .notFound rfl⟩

end Phantom
